import Mathlib

/-!
Verification of the Choreograph animation-timing core.

The development shallowly embeds the repository's time-stepping state
machine (`src/choreograph/TimelineItem.cpp`) and the Output/Motion
connection protocol exercised by `tests/Choreograph_test.cpp`.
C++ `Time` (a float) is modelled by `ℚ`, so the arithmetic identities
below are exact rather than up to floating-point rounding.

The `Output`, `Motion` and `Timeline` class bodies are not part of the
snapshot (only `TimelineItem.cpp` and the test suite are), so the
connection protocol is modelled as a small state machine over a `World`
of addressable slots and motions, following the spec's §4.2 contract and,
where the two disagree, the repository's own tests: the test cases
`Copy assignment brings motion along.` and `Vector of outputs can be
copied.` pin down that copy assignment of an `Output` transfers the live
connection to the destination, exactly like move assignment.
-/

namespace Choreograph

/-- State of a Clock-Driven Item, after the members of `TimelineItem`
(`_time`, `_previous_time`, `_speed`, and the duration supplied by the
attached producer via the virtual `getDuration()`). -/
structure TimelineItem where
  time : ℚ
  previousTime : ℚ
  speed : ℚ
  duration : ℚ
deriving Repr, DecidableEq

/-- Modelled from the spec: `forward()` lives in the header `TimelineItem.h`,
absent from the snapshot; the spec derives direction from the sign of
`speed`, forward meaning `speed >= 0`. -/
def TimelineItem.forward (s : TimelineItem) : Bool :=
  decide (0 ≤ s.speed)

/-- Modelled from the spec: `backward()` is the complement of `forward()`,
i.e. `speed < 0`. -/
def TimelineItem.backward (s : TimelineItem) : Bool :=
  decide (s.speed < 0)

/-- Modelled from the spec: `getEndTime()` is absent from the snapshot; per
the spec the backward logical start is the duration (the end of the range). -/
def TimelineItem.getEndTime (s : TimelineItem) : ℚ :=
  s.duration

/-- `TimelineItem::step( Time dt )`: `_time += dt * _speed; update();
_previous_time = _time;`.  The virtual `update()` recomputes the output
value from the producer (modelled separately by `outputValue` and, at the
world level, by `World.stepMotion`); it does not touch the time cursor. -/
def TimelineItem.step (s : TimelineItem) (dt : ℚ) : TimelineItem :=
  { s with
    time := s.time + dt * s.speed
    previousTime := s.time + dt * s.speed }

/-- `TimelineItem::jumpTo( Time time )`: `_time = time; update();
_previous_time = _time;`. -/
def TimelineItem.jumpTo (s : TimelineItem) (t : ℚ) : TimelineItem :=
  { s with time := t, previousTime := t }

/-- `TimelineItem::isFinished()`: backward is finished at `time <= 0`,
otherwise finished at `time >= duration`. -/
def TimelineItem.isFinished (s : TimelineItem) : Bool :=
  if s.backward then decide (s.time ≤ 0) else decide (s.duration ≤ s.time)

/-- `TimelineItem::resetTime()`: forward resets both time fields to `0`,
backward resets both to `getEndTime()`. -/
def TimelineItem.resetTime (s : TimelineItem) : TimelineItem :=
  if s.forward then { s with time := 0, previousTime := 0 }
  else { s with time := s.getEndTime, previousTime := s.getEndTime }

/-- The value a pure producer `f` yields at the item's current time; this is
what the virtual `update()` of a `Motion` writes into its output slot. -/
def TimelineItem.outputValue (f : ℚ → ℚ) (s : TimelineItem) : ℚ :=
  f s.time

/-- Modelled from the spec: `Sequence::getTimeWrapped` lives in the sequence
header, absent from the snapshot; per the spec the wrapped time is `t mod
duration`, i.e. `t` reduced by whole multiples of the duration. -/
def wrapTime (t d : ℚ) : ℚ :=
  t - d * ⌊t / d⌋

/-! ### The Output/Motion connection protocol

Slots and motions live at addresses (plain naturals standing for the C++
object addresses); a `World` maps addresses to the objects currently alive
there.  Each operation below models one C++ operation on `Output<T>`,
`Motion<T>` or `Timeline` as a total function on worlds. -/

/-- An Output Slot: the last written `value` and an optional back-link to
the driving motion (`connection`). -/
structure Slot where
  value : ℚ
  connection : Option Nat
deriving Repr, DecidableEq

/-- A Motion: its exclusively owned Clock-Driven Item plus a non-owning
reference to its target slot (`none` when disconnected). -/
structure Motion where
  item : TimelineItem
  target : Option Nat
deriving Repr, DecidableEq

/-- `Output::isConnected()` on a live slot. -/
def Slot.isConnected (s : Slot) : Bool :=
  s.connection.isSome

/-- `Motion::isConnected()` on a live motion. -/
def Motion.isConnected (m : Motion) : Bool :=
  m.target.isSome

/-- The world: which slot (if any) lives at each slot address, which motion
lives at each motion address, and the list of motions owned by the
timeline, in insertion order. -/
structure World where
  slots : Nat → Option Slot
  motions : Nat → Option Motion
  timeline : List Nat

/-- Replace the slot stored at address `sid`. -/
def World.setSlot (w : World) (sid : Nat) (sl : Slot) : World :=
  { w with slots := fun x => if x = sid then some sl else w.slots x }

/-- Apply `g` to the motion stored at address `mid`, if any. -/
def World.modifyMotion (w : World) (mid : Nat) (g : Motion → Motion) : World :=
  { w with motions := fun x => if x = mid then (w.motions x).map g else w.motions x }

/-- `isConnected()` observed through a slot address (`false` for a dead
address, matching that the C++ query needs a live object). -/
def World.slotIsConnected (w : World) (sid : Nat) : Bool :=
  match w.slots sid with
  | some s => s.isConnected
  | none => false

/-- `isConnected()` observed through a motion address. -/
def World.motionIsConnected (w : World) (mid : Nat) : Bool :=
  match w.motions mid with
  | some m => m.isConnected
  | none => false

/-- Sever the connection of the slot at `sid`, if any: its driving motion's
target becomes null and the slot's back-link is cleared.  This is the
`disconnect` both assignment operators perform on the overwritten slot. -/
def World.severSlot (w : World) (sid : Nat) : World :=
  match w.slots sid with
  | none => w
  | some s =>
    match s.connection with
    | none => w
    | some mid =>
      (w.modifyMotion mid (fun m => { m with target := none })).setSlot
        sid { s with connection := none }

/-- `Output` destructor: the driving motion (if any) is disconnected, then
the slot ceases to exist at its address. -/
def World.destroySlot (w : World) (sid : Nat) : World :=
  let w2 :=
    match w.slots sid with
    | none => w
    | some s =>
      match s.connection with
      | none => w
      | some mid => w.modifyMotion mid (fun m => { m with target := none })
  { w2 with slots := fun x => if x = sid then none else w2.slots x }

/-- `Output` copy assignment `dst = src`, as pinned down by the tests
`Copy assignment brings motion along.` and `Vector of outputs can be
copied.`: the destination first severs its own connection, then receives
the source's current value together with the source's live connection —
the driving motion is repointed at the destination and the source slot is
left disconnected (its value untouched). -/
def World.copyAssignSlot (w : World) (dst src : Nat) : World :=
  match w.slots src, w.slots dst with
  | some s, some _ =>
    let w1 := w.severSlot dst
    match s.connection with
    | some mid =>
      (((w1.setSlot src { s with connection := none }).setSlot
          dst { value := s.value, connection := some mid }).modifyMotion
        mid (fun m => { m with target := some dst }))
    | none => w1.setSlot dst { value := s.value, connection := none }
  | _, _ => w

/-- `Output` move assignment `dst = std::move(src)` (test `Move assignment
brings motion along.`): the destination severs its own connection and
inherits the source's value and live connection; the moved-from slot
becomes a disconnected shell. -/
def World.moveAssignSlot (w : World) (dst src : Nat) : World :=
  match w.slots src, w.slots dst with
  | some s, some _ =>
    let w1 := w.severSlot dst
    match s.connection with
    | some mid =>
      (((w1.setSlot src { s with connection := none }).setSlot
          dst { value := s.value, connection := some mid }).modifyMotion
        mid (fun m => { m with target := some dst }))
    | none => w1.setSlot dst { value := s.value, connection := none }
  | _, _ => w

/-- `Motion` destructor: if the motion is still connected it clears its
target slot's back-link, then the motion ceases to exist at its address
(and leaves the timeline's ownership list if it was there). -/
def World.destroyMotion (w : World) (mid : Nat) : World :=
  let w2 :=
    match w.motions mid with
    | none => w
    | some m =>
      match m.target with
      | none => w
      | some sid =>
        match w.slots sid with
        | none => w
        | some s => w.setSlot sid { s with connection := none }
  { w2 with
    motions := fun x => if x = mid then none else w2.motions x
    timeline := w2.timeline.filter (fun x => x ≠ mid) }

/-- Advance the motion at `mid` by `dt`: its item steps
(`TimelineItem::step`), and the virtual `update()` writes the producer's
value at the new time through the target reference — but only when the
motion is still connected and the slot alive. -/
def World.stepMotion (f : ℚ → ℚ) (w : World) (mid : Nat) (dt : ℚ) : World :=
  match w.motions mid with
  | none => w
  | some m =>
    let item2 := m.item.step dt
    let w2 := w.modifyMotion mid (fun mo => { mo with item := item2 })
    match m.target with
    | none => w2
    | some sid =>
      match w2.slots sid with
      | none => w2
      | some s => w2.setSlot sid { s with value := f item2.time }

/-- `Motion::skipTo(t)`: the item jumps (`TimelineItem::jumpTo`) and the
producer's value at `t` is written through the target reference, when
connected. -/
def World.skipToMotion (f : ℚ → ℚ) (w : World) (mid : Nat) (t : ℚ) : World :=
  match w.motions mid with
  | none => w
  | some m =>
    let item2 := m.item.jumpTo t
    let w2 := w.modifyMotion mid (fun mo => { mo with item := item2 })
    match m.target with
    | none => w2
    | some sid =>
      match w2.slots sid with
      | none => w2
      | some s => w2.setSlot sid { s with value := f item2.time }

/-- A motion the timeline should reap: dead address or null target. -/
def World.motionDead (w : World) (mid : Nat) : Bool :=
  match w.motions mid with
  | some m => m.target.isNone
  | none => true

/-- `Timeline::step(dt)`: every owned motion advances by the same `dt` in
insertion order, then motions whose connection is gone are reaped — removed
from the ownership list and destroyed. -/
def World.timelineStep (f : ℚ → ℚ) (w : World) (dt : ℚ) : World :=
  let w2 := w.timeline.foldl (fun acc mid => acc.stepMotion f mid dt) w
  { w2 with
    timeline := w2.timeline.filter (fun mid => !(w2.motionDead mid))
    motions := fun x =>
      if x ∈ w2.timeline ∧ w2.motionDead x then none else w2.motions x }

/-- `Timeline::size()`. -/
def World.timelineSize (w : World) : Nat :=
  w.timeline.length

/-- `Timeline::empty()`. -/
def World.timelineIsEmpty (w : World) : Bool :=
  w.timeline.isEmpty

/-- A concrete two-slot world after the `Copy assignment brings motion
along.` test fixture: slot `0` (`base`, value `1`) is driven by motion `0`
whose sequence ramps from `0` to `10` over `2` seconds; slot `1` (`copy`,
value `0`) is free.  The timeline owns motion `0`. -/
def testWorld : World where
  slots := fun x =>
    if x = 0 then some ⟨1, some 0⟩ else if x = 1 then some ⟨0, none⟩ else none
  motions := fun x => if x = 0 then some ⟨⟨0, 0, 1, 2⟩, some 0⟩ else none
  timeline := [0]

/-- The ramp of the test fixture: `0` to `10` over `2` seconds. -/
def testRamp (t : ℚ) : ℚ :=
  5 * t

/-! ### Claims about the Clock-Driven Item -/

/-- Claim C3: for every Clock-Driven Item state and every argument,
immediately after `step(dt)` and immediately after `jumpTo(t)`,
`previousTime == time` holds. -/
theorem step_jumpTo_syncs_previousTime (s : TimelineItem) (dt t : ℚ) :
    (s.step dt).previousTime = (s.step dt).time ∧
    (s.jumpTo t).previousTime = (s.jumpTo t).time := by
  constructor <;> rfl

/-- Claim C4: step additivity — with constant speed, stepping by `dt1` then
`dt2` with `dt1 + dt2 = dt` yields the same time and the same output value
as one `step(dt)`. -/
theorem step_additive (f : ℚ → ℚ) (s : TimelineItem) (dt1 dt2 dt : ℚ)
    (h : dt1 + dt2 = dt) :
    ((s.step dt1).step dt2).time = (s.step dt).time ∧
    ((s.step dt1).step dt2).outputValue f = (s.step dt).outputValue f := by
  subst h
  have ht : ((s.step dt1).step dt2).time = (s.step (dt1 + dt2)).time := by
    simp only [TimelineItem.step]
    ring
  exact ⟨ht, congrArg f ht⟩

/-- Witness for C4 at a concrete state: stepping `⟨0, 0, 2, 10⟩` by `1` then
by `3` lands at the same time and output value as one step by `4`. -/
theorem step_additive_witness :
    (((⟨0, 0, 2, 10⟩ : TimelineItem).step 1).step 3).time =
      ((⟨0, 0, 2, 10⟩ : TimelineItem).step 4).time ∧
    (((⟨0, 0, 2, 10⟩ : TimelineItem).step 1).step 3).outputValue (fun x => x + 1) =
      ((⟨0, 0, 2, 10⟩ : TimelineItem).step 4).outputValue (fun x => x + 1) :=
  step_additive (fun x => x + 1) ⟨0, 0, 2, 10⟩ 1 3 4 (by norm_num)

/-- Claim C5: direction-aware completion — forward (`speed ≥ 0`) is finished
exactly when `time ≥ duration`, backward (`speed < 0`) exactly when
`time ≤ 0`; and after `jumpTo`, forward is finished at `t = duration`,
backward is finished at `t = 0`. -/
theorem isFinished_direction_rule (s : TimelineItem) :
    (0 ≤ s.speed → (s.isFinished = true ↔ s.duration ≤ s.time)) ∧
    (s.speed < 0 → (s.isFinished = true ↔ s.time ≤ 0)) ∧
    (0 ≤ s.speed → (s.jumpTo s.duration).isFinished = true) ∧
    (s.speed < 0 → (s.jumpTo 0).isFinished = true) := by
  refine ⟨fun hf => ?_, fun hb => ?_, fun hf => ?_, fun hb => ?_⟩
  · simp [TimelineItem.isFinished, TimelineItem.backward, not_lt.mpr hf]
  · simp [TimelineItem.isFinished, TimelineItem.backward, hb]
  · simp [TimelineItem.isFinished, TimelineItem.backward, TimelineItem.jumpTo,
      not_lt.mpr hf]
  · simp [TimelineItem.isFinished, TimelineItem.backward, TimelineItem.jumpTo, hb]

/-- Witness for C5 at concrete states: a forward item at `time = 10` with
`duration = 10` is finished, and a backward item jumped to `0` is finished. -/
theorem isFinished_direction_rule_witness :
    ((⟨10, 10, 1, 10⟩ : TimelineItem).isFinished = true) ∧
    ((⟨5, 5, -1, 10⟩ : TimelineItem).jumpTo 0).isFinished = true :=
  ⟨((isFinished_direction_rule ⟨10, 10, 1, 10⟩).1 (by norm_num)).mpr (by norm_num),
    (isFinished_direction_rule ⟨5, 5, -1, 10⟩).2.2.2 (by norm_num)⟩

/-- Claim C9: `resetTime()` restores the direction-dependent logical start:
forward items get `time = previousTime = 0`, backward items get
`time = previousTime = duration`. -/
theorem resetTime_direction_start (s : TimelineItem) :
    (0 ≤ s.speed → s.resetTime.time = 0 ∧ s.resetTime.previousTime = 0) ∧
    (s.speed < 0 →
      s.resetTime.time = s.duration ∧ s.resetTime.previousTime = s.duration) := by
  refine ⟨fun hf => ?_, fun hb => ?_⟩
  · simp [TimelineItem.resetTime, TimelineItem.forward, TimelineItem.getEndTime, hf]
  · simp [TimelineItem.resetTime, TimelineItem.forward, TimelineItem.getEndTime,
      not_le.mpr hb]

/-- Witness for C9 at concrete states: resetting a forward item returns both
time fields to `0`; resetting a backward item returns both to its duration. -/
theorem resetTime_direction_start_witness :
    ((⟨7, 7, 1, 10⟩ : TimelineItem).resetTime.time = 0 ∧
      (⟨7, 7, 1, 10⟩ : TimelineItem).resetTime.previousTime = 0) ∧
    ((⟨7, 7, -1, 10⟩ : TimelineItem).resetTime.time = 10 ∧
      (⟨7, 7, -1, 10⟩ : TimelineItem).resetTime.previousTime = 10) :=
  ⟨(resetTime_direction_start ⟨7, 7, 1, 10⟩).1 (by norm_num),
    (resetTime_direction_start ⟨7, 7, -1, 10⟩).2 (by norm_num)⟩

/-- Claim C10: frame condition — neither `step(dt)` nor `jumpTo(t)` modifies
`speed` or `duration`; only the time fields (and the computed output value)
change. -/
theorem step_jumpTo_preserve_speed_duration (s : TimelineItem) (dt t : ℚ) :
    (s.step dt).speed = s.speed ∧ (s.step dt).duration = s.duration ∧
    (s.jumpTo t).speed = s.speed ∧ (s.jumpTo t).duration = s.duration :=
  ⟨rfl, rfl, rfl, rfl⟩

/-- Claim C8: the wrapped-time query is periodic in the duration — for every
`t`, every positive duration `d` and every natural `k`,
`wrapTime (t + k * d) d = wrapTime t d` (exactly, in the rational model). -/
theorem wrapTime_periodic (t d : ℚ) (k : ℕ) (hd : 0 < d) :
    wrapTime (t + (k : ℚ) * d) d = wrapTime t d := by
  unfold wrapTime
  have hdne : d ≠ 0 := ne_of_gt hd
  have hq : (t + (k : ℚ) * d) / d = t / d + (k : ℚ) := by
    field_simp
  rw [hq, Int.floor_add_nat]
  push_cast
  ring

/-- Witness for C8: wrapping `5/2 + 3 * 2` with duration `2` equals wrapping
`5/2`. -/
theorem wrapTime_periodic_witness :
    wrapTime ((5 : ℚ)/2 + ((3 : ℕ) : ℚ) * 2) 2 = wrapTime ((5 : ℚ)/2) 2 :=
  wrapTime_periodic ((5 : ℚ)/2) 2 3 (by norm_num)

/-! ### Claims about the connection protocol -/

/-- Counterexample to C1 as stated: in the `Copy assignment brings motion
along.` fixture, after `copy = base` the destination slot IS connected
(`isConnected() == true`, the claim says `false`), and `skipTo(1)` writes
the ramp's value `5` into the destination while the source keeps its old
value `1` and is disconnected — the opposite of "subsequent motion steps
continue to write into `a`, not `b`". -/
theorem copyAssign_transfers_counterexample :
    ((testWorld.copyAssignSlot 1 0).slotIsConnected 1 = true) ∧
    ((testWorld.copyAssignSlot 1 0).slotIsConnected 0 = false) ∧
    (((testWorld.copyAssignSlot 1 0).skipToMotion testRamp 0 1).slots 1 =
      some ⟨5, some 0⟩) ∧
    (((testWorld.copyAssignSlot 1 0).skipToMotion testRamp 0 1).slots 0 =
      some ⟨1, none⟩) := by
  refine ⟨by decide, by decide, ?_, ?_⟩ <;>
    simp [World.copyAssignSlot, World.skipToMotion, World.severSlot, World.setSlot,
      World.modifyMotion, testWorld, testRamp, TimelineItem.jumpTo]

/-- Claim C1 (amended, after the repository's tests): copy assignment
`b = a` of a connected Output Slot transfers the live connection — `b`
receives `a`'s current value and becomes connected, the driving motion is
repointed at `b`, `a` is left disconnected with its value untouched, and
subsequent motion steps write into `b`, not `a`. -/
theorem copyAssign_transfers_connection (w : World) (a b mid : Nat)
    (sa sb : Slot) (mo : Motion)
    (hsa : w.slots a = some sa) (hc : sa.connection = some mid)
    (hsb : w.slots b = some sb) (hfree : sb.connection = none)
    (hm : w.motions mid = some mo) (hab : a ≠ b) :
    ((w.copyAssignSlot b a).slots b = some ⟨sa.value, some mid⟩) ∧
    ((w.copyAssignSlot b a).slotIsConnected b = true) ∧
    ((w.copyAssignSlot b a).slots a = some ⟨sa.value, none⟩) ∧
    ((w.copyAssignSlot b a).slotIsConnected a = false) ∧
    ((w.copyAssignSlot b a).motions mid = some { mo with target := some b }) ∧
    (∀ f t,
      (((w.copyAssignSlot b a).skipToMotion f mid t).slots b =
        some ⟨f t, some mid⟩) ∧
      (((w.copyAssignSlot b a).skipToMotion f mid t).slots a =
        some ⟨sa.value, none⟩)) := by
  have hba : ¬ (b = a) := fun h => hab h.symm
  refine ⟨?_, ?_, ?_, ?_, ?_, ?_⟩ <;>
    simp [World.copyAssignSlot, World.skipToMotion, World.severSlot, World.setSlot,
      World.modifyMotion, World.slotIsConnected, Slot.isConnected,
      TimelineItem.jumpTo, hsa, hc, hsb, hfree, hm, hab, hba]

/-- Witness for C1 (amended) at the test fixture, via the general theorem:
after `copy = base` the destination is connected, the source is not, and
`skipTo(1)` writes the ramp value into the destination. -/
theorem copyAssign_transfers_connection_witness :
    ((testWorld.copyAssignSlot 1 0).slotIsConnected 1 = true) ∧
    ((testWorld.copyAssignSlot 1 0).slotIsConnected 0 = false) ∧
    (((testWorld.copyAssignSlot 1 0).skipToMotion testRamp 0 1).slots 1 =
      some ⟨testRamp 1, some 0⟩) := by
  obtain ⟨h1, h2, h3, h4, h5, h6⟩ :=
    copyAssign_transfers_connection testWorld 0 1 0 ⟨1, some 0⟩ ⟨0, none⟩
      ⟨⟨0, 0, 1, 2⟩, some 0⟩ rfl rfl rfl rfl rfl (by decide)
  exact ⟨h2, h4, (h6 testRamp 1).1⟩

/-- Claim C6: move assignment `b = std::move(a)` of a connected Output Slot
transfers the live connection — `b` becomes connected and holds `a`'s
value, `a` is disconnected, the motion's reference is repointed at `b`,
and subsequent motion steps write into `b`, not `a`. -/
theorem moveAssign_transfers_connection (w : World) (a b mid : Nat)
    (sa sb : Slot) (mo : Motion)
    (hsa : w.slots a = some sa) (hc : sa.connection = some mid)
    (hsb : w.slots b = some sb) (hfree : sb.connection = none)
    (hm : w.motions mid = some mo) (hab : a ≠ b) :
    ((w.moveAssignSlot b a).slots b = some ⟨sa.value, some mid⟩) ∧
    ((w.moveAssignSlot b a).slotIsConnected b = true) ∧
    ((w.moveAssignSlot b a).slots a = some ⟨sa.value, none⟩) ∧
    ((w.moveAssignSlot b a).slotIsConnected a = false) ∧
    ((w.moveAssignSlot b a).motions mid = some { mo with target := some b }) ∧
    (∀ f t,
      (((w.moveAssignSlot b a).skipToMotion f mid t).slots b =
        some ⟨f t, some mid⟩) ∧
      (((w.moveAssignSlot b a).skipToMotion f mid t).slots a =
        some ⟨sa.value, none⟩)) := by
  have hba : ¬ (b = a) := fun h => hab h.symm
  refine ⟨?_, ?_, ?_, ?_, ?_, ?_⟩ <;>
    simp [World.moveAssignSlot, World.skipToMotion, World.severSlot, World.setSlot,
      World.modifyMotion, World.slotIsConnected, Slot.isConnected,
      TimelineItem.jumpTo, hsa, hc, hsb, hfree, hm, hab, hba]

/-- Witness for C6 at the test fixture, via the general theorem: after
`copy = std::move(base)` the destination is connected, the source is not,
and `skipTo(1)` writes the ramp value into the destination. -/
theorem moveAssign_transfers_connection_witness :
    ((testWorld.moveAssignSlot 1 0).slotIsConnected 1 = true) ∧
    ((testWorld.moveAssignSlot 1 0).slotIsConnected 0 = false) ∧
    (((testWorld.moveAssignSlot 1 0).skipToMotion testRamp 0 1).slots 1 =
      some ⟨testRamp 1, some 0⟩) := by
  obtain ⟨h1, h2, h3, h4, h5, h6⟩ :=
    moveAssign_transfers_connection testWorld 0 1 0 ⟨1, some 0⟩ ⟨0, none⟩
      ⟨⟨0, 0, 1, 2⟩, some 0⟩ rfl rfl rfl rfl rfl (by decide)
  exact ⟨h2, h4, (h6 testRamp 1).1⟩

/-- Claim C7: destroying a Motion that is still connected clears its target
slot's back-link before the Motion's state is released: the slot keeps its
value but reports `isConnected() == false`, and the motion is gone. -/
theorem destroyMotion_disconnects_slot (w : World) (mid sid : Nat)
    (mo : Motion) (sa : Slot)
    (hm : w.motions mid = some mo) (ht : mo.target = some sid)
    (hs : w.slots sid = some sa) (hc : sa.connection = some mid) :
    ((w.destroyMotion mid).slots sid = some ⟨sa.value, none⟩) ∧
    ((w.destroyMotion mid).slotIsConnected sid = false) ∧
    ((w.destroyMotion mid).motions mid = none) := by
  simp [World.destroyMotion, World.setSlot, World.slotIsConnected,
    Slot.isConnected, hm, ht, hs]

/-- Witness for C7 at the test fixture: destroying motion `0` leaves slot
`0` with its value `1` but disconnected, and the motion is gone. -/
theorem destroyMotion_disconnects_slot_witness :
    ((testWorld.destroyMotion 0).slots 0 = some ⟨1, none⟩) ∧
    ((testWorld.destroyMotion 0).slotIsConnected 0 = false) ∧
    ((testWorld.destroyMotion 0).motions 0 = none) :=
  destroyMotion_disconnects_slot testWorld 0 0 ⟨⟨0, 0, 1, 2⟩, some 0⟩
    ⟨1, some 0⟩ rfl rfl rfl rfl

/-- Claim C2: destroying an Output Slot while a Motion targets it nulls the
motion's reference (`isConnected() == false`), the next Timeline step never
writes through the dangling reference (every surviving slot address is left
untouched), and reaping empties the timeline. -/
theorem destroySlot_disconnects_and_reaps (w : World) (sid mid : Nat)
    (sa : Slot) (mo : Motion) (f : ℚ → ℚ) (dt : ℚ)
    (hs : w.slots sid = some sa) (hc : sa.connection = some mid)
    (hm : w.motions mid = some mo) (ht : mo.target = some sid)
    (htl : w.timeline = [mid]) :
    ((w.destroySlot sid).motions mid = some { mo with target := none }) ∧
    ((w.destroySlot sid).motionIsConnected mid = false) ∧
    (((w.destroySlot sid).timelineStep f dt).timeline = []) ∧
    (((w.destroySlot sid).timelineStep f dt).timelineIsEmpty = true) ∧
    (∀ x, ((w.destroySlot sid).timelineStep f dt).slots x =
      (w.destroySlot sid).slots x) := by
  simp [World.destroySlot, World.timelineStep, World.stepMotion, World.setSlot,
    World.modifyMotion, World.motionIsConnected, Motion.isConnected,
    World.motionDead, World.timelineIsEmpty, World.timelineSize,
    hs, hc, hm, ht, htl]

/-- Witness for C2 at the test fixture: after slot `0` dies, motion `0` is
disconnected, and one Timeline step (by `1/2`) reaps it, leaving the
timeline empty with all slot addresses untouched. -/
theorem destroySlot_disconnects_and_reaps_witness :
    ((testWorld.destroySlot 0).motions 0 =
      some { item := ⟨0, 0, 1, 2⟩, target := none }) ∧
    (((testWorld.destroySlot 0).timelineStep testRamp (1/2)).timelineIsEmpty =
      true) ∧
    (((testWorld.destroySlot 0).timelineStep testRamp (1/2)).slots 1 =
      (testWorld.destroySlot 0).slots 1) := by
  obtain ⟨h1, h2, h3, h4, h5⟩ :=
    destroySlot_disconnects_and_reaps testWorld 0 0 ⟨1, some 0⟩
      ⟨⟨0, 0, 1, 2⟩, some 0⟩ testRamp (1/2) rfl rfl rfl rfl rfl
  exact ⟨h1, h4, h5 1⟩

end Choreograph
